import Mathlib

/-!
Shallow embedding of the WarSpire database updater
(`src/server/database/Updater/DBUpdater.cpp`).

The embedding models the non-Windows build of the file. Effects of the
external collaborators (connection pool queries, the filesystem, the
external mysql client process, the downloader, configuration lookups and
the operator's standard input) are passed in explicitly as environment
records and a list of pending stdin lines; each function returns its
result together with the remaining stdin and a trace of the SQL-client
invocations it performed.
-/

namespace DBUpdaterModel

/-- `enum BaseLocation` from `DBUpdater.h`, as used by the per-type
`GetBaseLocationType` specializations in `DBUpdater.cpp`. -/
inductive BaseLocation
  | LOCATION_REPOSITORY
  | LOCATION_DOWNLOAD
deriving DecidableEq, Repr

/-- The four database connection types the file instantiates `DBUpdater`
with (`LoginDatabaseConnection`, `WorldDatabaseConnection`,
`CharacterDatabaseConnection`, `HotfixDatabaseConnection`). -/
inductive DatabaseType
  | Login
  | World
  | Character
  | Hotfix
deriving DecidableEq, Repr

/-- `DBUpdater<T>::GetConfigEntry` per template specialization. -/
def GetConfigEntry : DatabaseType → String
  | .Login => "Updates.Auth"
  | .World => "Updates.World"
  | .Character => "Updates.Character"
  | .Hotfix => "Updates.Hotfix"

/-- `DBUpdater<T>::GetTableName` per template specialization. -/
def GetTableName : DatabaseType → String
  | .Login => "Auth"
  | .World => "World"
  | .Character => "Character"
  | .Hotfix => "Hotfixes"

/-- `DBUpdater<T>::GetBaseLocationType`: the generic template returns
`LOCATION_REPOSITORY`; the `WorldDatabaseConnection` and
`HotfixDatabaseConnection` specializations return `LOCATION_DOWNLOAD`. -/
def GetBaseLocationType : DatabaseType → BaseLocation
  | .World => .LOCATION_DOWNLOAD
  | .Hotfix => .LOCATION_DOWNLOAD
  | .Login => .LOCATION_REPOSITORY
  | .Character => .LOCATION_REPOSITORY

/-- The static per-type policy data of `DBUpdater<T>` (the spec's
`DatabaseProfile`): config key, display table name, base-location kind. -/
structure DatabaseProfile where
  configEntry : String
  tableName : String
  baseLocationType : BaseLocation
deriving DecidableEq, Repr

/-- The profile bound to a database type by the template specializations. -/
def profileOf (t : DatabaseType) : DatabaseProfile :=
  { configEntry := GetConfigEntry t
    tableName := GetTableName t
    baseLocationType := GetBaseLocationType t }

/-- `class UpdateException` thrown by `ApplyFile` / caught by `Create`,
`Update` and `Populate`. -/
inductive UpdateException
  | updateException (message : String)
deriving DecidableEq, Repr

/-- `struct UpdateResult` as consumed by `DBUpdater<T>::Update`
(fields `recent`, `archived`, `updated`). -/
structure UpdateResult where
  recent : Nat
  archived : Nat
  updated : Nat
deriving DecidableEq, Repr

/-- `std::getline(std::cin, line)`: reading past the end of the scripted
input yields the empty string. -/
def getline : List String → String × List String
  | [] => ("", [])
  | line :: rest => (line, rest)

/-! ### ExecutableLocator (`DBUpdaterUtil`) -/

/-- External collaborators of `DBUpdaterUtil`: the configured default
client path (`BuiltInConfig::GetMySQLExecutable`), the filesystem's
`is_regular_file`, the result of `Trinity::SearchExecutableInPath("mysql")`
(empty when nothing is found), and `boost::filesystem::absolute`. -/
structure ExecEnv where
  defaultPath : String
  is_regular_file : String → Bool
  searchPathResult : String
  absolute : String → String

/-- `DBUpdaterUtil::GetCorrectedMySQLExecutable`: the cached corrected
path when non-empty, otherwise the configured default. The mutable
process-wide cell `corrected_path()` is the explicit `cache` argument. -/
def GetCorrectedMySQLExecutable (env : ExecEnv) (cache : String) : String :=
  if cache ≠ "" then cache else env.defaultPath

/-- `DBUpdaterUtil::CheckExecutable`, returning its boolean result and the
new value of the `corrected_path()` cell. -/
def CheckExecutable (env : ExecEnv) (cache : String) : Bool × String :=
  let exe := GetCorrectedMySQLExecutable env cache
  if env.is_regular_file exe then (true, cache)
  else
    let exe2 := env.searchPathResult
    if exe2 ≠ "" ∧ env.is_regular_file exe2 = true then
      (true, env.absolute exe2)
    else
      (false, cache)

/-! ### ProcessApplier argument construction (`DBUpdater<T>::ApplyFile`) -/

/-- The bounds-checked read of `port_or_socket[0]`: defined only when the
string is non-empty. -/
def portOrSocketFirstChar (s : String) : Option Char :=
  s.data.head?

/-- `std::isdigit(port_or_socket[0])` as the total test actually used to
pick the branch; on the empty string the underlying index has no
in-bounds character. -/
def firstCharIsDigit (s : String) : Bool :=
  match s.data with
  | [] => false
  | c :: _ => c.isDigit

/-- The connection arguments: `-h<host>`, `-u<user>`, and `-p<password>`
when the password is non-empty. -/
def connArgs (host user password : String) : List String :=
  ["-h" ++ host, "-u" ++ user] ++ (if password ≠ "" then ["-p" ++ password] else [])

/-- The non-Windows port-or-socket branch: a non-digit first character
selects the named-socket protocol-override flags, otherwise the generic
TCP port flag. -/
def portArgs (port_or_socket : String) : List String :=
  if firstCharIsDigit port_or_socket = false then
    ["-P0", "--protocol=SOCKET", "-S" ++ port_or_socket]
  else
    ["-P" ++ port_or_socket]

/-- Charset and packet-size flags. -/
def charsetArgs : List String :=
  ["--default-character-set=utf8mb4", "--max-allowed-packet=1GB"]

/-- The TLS / client-commands flags; `mysql8` models building against
MySQL (not MariaDB) with `MYSQL_VERSION_ID >= 80000`, and `mysql94`
models `MYSQL_VERSION_ID >= 90400`. -/
def sslArgs (ssl : String) (mysql8 mysql94 : Bool) : List String :=
  if mysql8 then
    (if ssl = "ssl" then ["--ssl-mode=REQUIRED"] else [])
      ++ (if mysql94 then ["--commands=ON"] else [])
  else
    (if ssl = "ssl" then ["--ssl"] else [])

/-- `Trinity::StringFormat("BEGIN; SOURCE \x7b\x7d; COMMIT;", path)`. -/
def sourceCommand (path : String) : String :=
  "BEGIN; SOURCE " ++ path ++ "; COMMIT;"

/-- The full argument vector `ApplyFile` builds before invoking the mysql
client (non-Windows branch). -/
def makeApplyFileArgs (host user password port_or_socket database ssl path : String)
    (mysql8 mysql94 : Bool) : List String :=
  connArgs host user password
    ++ portArgs port_or_socket
    ++ charsetArgs
    ++ sslArgs ssl mysql8 mysql94
    ++ ["-e", sourceCommand path]
    ++ (if database ≠ "" then [database] else [])

/-! ### ApplyFile's failure-recovery flow -/

/-- External collaborators of `ApplyFile`'s recovery flow: the exit code
`Trinity::StartProcess` returns for a given SQL file path, and the
filesystem's `is_regular_file` test used to decide whether a default TDB
file exists at that path. -/
structure ApplyEnv where
  processRet : String → Int
  is_regular_file : String → Bool

/-- `DBUpdater<T>::ApplyFile(pool, ..., path)`: invokes the mysql client
on `path`; on a non-zero exit it either throws at once (no default file
on disk), or prompts the operator and, on a `y`/`Y` answer, retries by
calling `ApplyFile` on the same path again, rethrowing that call's
failure. Returns the outcome, the remaining stdin, and the list of
client invocations performed (the path of each `StartProcess` call). -/
def ApplyFileRun (env : ApplyEnv) (path : String) :
    List String → Except UpdateException Unit × List String × List String
  | [] =>
    let ret := env.processRet path
    if ret = 0 then
      (.ok (), [], [path])
    else if env.is_regular_file path = false then
      (.error (.updateException "Database update canceled or failed"), [], [path])
    else
      -- getline on exhausted input yields "", which is not y/Y
      (.error (.updateException "Database update canceled or failed"), [], [path])
  | response :: rest =>
    let ret := env.processRet path
    if ret = 0 then
      (.ok (), response :: rest, [path])
    else if env.is_regular_file path = false then
      (.error (.updateException "Database update canceled or failed"), response :: rest, [path])
    else if response = "y" ∨ response = "Y" then
      let r := ApplyFileRun env path rest
      (r.1, r.2.1, path :: r.2.2)
    else
      (.error (.updateException "Database update canceled or failed"), rest, [path])

/-! ### Create -/

/-- Observable steps of `DBUpdater<T>::Create` on the scratch file
`create_table.sql`: writing it with a given content, applying it through
the client, and deleting it. -/
inductive CreateEvent
  | writeTemp (content : String)
  | applyTemp
  | removeTemp
deriving DecidableEq, Repr

/-- External collaborators of `Create`: whether the scratch `ofstream`
opens, and whether the inner `ApplyFile` call throws `UpdateException`. -/
structure CreateEnv where
  fileOpenOk : Bool
  applyThrows : Bool

/-- The statement `Create` writes into the scratch file. -/
def createStatement (database : String) : String :=
  "CREATE DATABASE `" ++ database
    ++ "` DEFAULT CHARACTER SET utf8mb4 COLLATE utf8mb4_unicode_ci\n\n"

/-- `DBUpdater<T>::Create`: result plus the trace of scratch-file events. -/
def Create (env : CreateEnv) (database : String) : Bool × List CreateEvent :=
  if env.fileOpenOk = false then
    (false, [])
  else
    if env.applyThrows then
      (false, [.writeTemp (createStatement database), .applyTemp, .removeTemp])
    else
      (true, [.writeTemp (createStatement database), .applyTemp, .removeTemp])

/-! ### Update -/

/-- `DBUpdater<T>::Update`: gated on `DBUpdaterUtil::CheckExecutable` and
on `is_directory(sourceDirectory)`, then runs `updateFetcher.Update`,
translating its `UpdateException` into `false`. The second component
records whether the fetcher's `Update` was invoked at all. -/
def Update (checkExecutableOk : Bool) (sourceDirectoryExists : Bool)
    (fetch : Except UpdateException UpdateResult) : Bool × Bool :=
  if checkExecutableOk = false then
    (false, false)
  else if sourceDirectoryExists = false then
    (false, false)
  else
    match fetch with
    | .error _ => (false, true)
    | .ok _ => (true, true)

/-! ### Populate -/

/-- External collaborators of `DBUpdater<T>::Populate`:
`DBUpdaterUtil::CheckExecutable`'s result, whether the `SHOW TABLES`
query returned a non-null result with at least one row, the path
`GetBaseFile` resolves to, the `AllowAutoDBUpdate` configuration flag,
`DownloadFile`'s result, and the collaborators of `ApplyFile`. -/
structure PopulateEnv where
  checkExecutableOk : Bool
  showTablesNonEmpty : Bool
  baseFile : String
  allowAutoDBUpdate : Bool
  downloadOk : Bool
  applyEnv : ApplyEnv

/-- The hardcoded download URL for the World database base snapshot. -/
def worldDownloadUrl : String :=
  "https://warspire.fpr.net/download/sql/TDB_full_world_1125.25101_2025_10_29.sql"

/-- The hardcoded download URL for the Hotfixes database base snapshot. -/
def hotfixesDownloadUrl : String :=
  "https://warspire.fpr.net/download/sql/TDB_full_hotfixes_1125.25101_2025_10_29.sql"

/-- The `downloadUrl` the `Populate` body selects from the table name. -/
def downloadUrlFor (dbName : String) : String :=
  if dbName = "World" then worldDownloadUrl
  else if dbName = "Hotfixes" then hotfixesDownloadUrl
  else ""

/-- The tail of `Populate`: `try { ApplyFile(pool, base); } catch
(UpdateException&) \x7b\x7d` followed by an unconditional `return true`. -/
def applyBaseStage (env : PopulateEnv) (base : String) (stdin : List String) :
    Bool × List String × List String :=
  let r := ApplyFileRun env.applyEnv base stdin
  (true, r.2.1, r.2.2)

/-- `DBUpdater<T>::Populate`: result, remaining stdin, and the list of
SQL-client invocations (paths passed to `StartProcess`). -/
def Populate (t : DatabaseType) (env : PopulateEnv) (stdin : List String) :
    Bool × List String × List String :=
  if env.checkExecutableOk = false then
    (false, stdin, [])
  else
    let dbName := GetTableName t
    if dbName ≠ "World" ∧ dbName ≠ "Hotfixes" ∧ env.showTablesNonEmpty = true then
      -- original behavior: only populate if empty
      (true, stdin, [])
    else
      let p := env.baseFile
      if p = "" then
        -- ">> No base file provided, skipped!"
        (true, stdin, [])
      else
        let base := p
        let downloadUrl := downloadUrlFor dbName
        if downloadUrl ≠ "" then
          let step1 := if env.allowAutoDBUpdate then ("y", stdin) else getline stdin
          let userInput := step1.1
          let stdin1 := step1.2
          if userInput = "y" ∨ userInput = "Y" then
            if env.downloadOk = false then
              -- "Failed to download ... Manual download required!"
              (false, stdin1, [])
            else
              applyBaseStage env base stdin1
          else
            let step2 := getline stdin1
            let userInput2 := step2.1
            let stdin2 := step2.2
            if userInput2 = "y" ∨ userInput2 = "Y" then
              let step3 := getline stdin2
              let localFile := step3.1
              let stdin3 := step3.2
              -- base = Path(localFile), applied even when localFile is empty
              applyBaseStage env localFile stdin3
            else
              -- "Update canceled by user." — then still falls through to apply
              applyBaseStage env base stdin2
        else
          applyBaseStage env base stdin

/-! ### Helper lemmas -/

/-- The branch test of `portArgs` agrees with the first character. -/
lemma firstCharIsDigit_head (s : String) (c : Char) (h : s.data.head? = some c) :
    firstCharIsDigit s = c.isDigit := by
  unfold firstCharIsDigit
  cases hd : s.data with
  | nil => rw [hd] at h; simp at h
  | cons a l =>
    rw [hd] at h
    simp only [List.head?_cons, Option.some.injEq] at h
    rw [h]

/-- The World download URL is non-empty. -/
lemma downloadUrlFor_world_ne : downloadUrlFor "World" ≠ "" := by decide

/-- The Hotfixes download URL is non-empty. -/
lemma downloadUrlFor_hotfixes_ne : downloadUrlFor "Hotfixes" ≠ "" := by decide

/-- Every `ApplyFileRun` invocation records the applied path in its trace. -/
lemma ApplyFileRun_trace_mem (env : ApplyEnv) (path : String) (stdin : List String) :
    path ∈ (ApplyFileRun env path stdin).2.2 := by
  cases stdin with
  | nil =>
    unfold ApplyFileRun
    dsimp only
    split
    · simp
    · split <;> simp
  | cons response rest =>
    unfold ApplyFileRun
    dsimp only
    split
    · simp
    · split
      · simp
      · split <;> simp

/-- `Populate` either returns success or performed no SQL-client
invocation: every branch that reaches the apply stage returns `true`
unconditionally (the `UpdateException` is swallowed). -/
lemma Populate_shape (t : DatabaseType) (env : PopulateEnv) (stdin : List String) :
    (Populate t env stdin).1 = true ∨ (Populate t env stdin).2.2 = [] := by
  unfold Populate
  dsimp only
  repeat' first
    | (left; rfl)
    | (right; rfl)
    | split

/-! ### Claim theorems -/

/-- C9: each of the four database types maps to exactly one policy
profile, the base-location kind is `LOCATION_DOWNLOAD` exactly for the
world-content and hotfix-content types, and the primary-auth and
player-character types get `LOCATION_REPOSITORY` (the generic default). -/
theorem c9_policy_profiles_exclusive :
    (∀ t : DatabaseType, ∃! p : DatabaseProfile, profileOf t = p) ∧
    (∀ t : DatabaseType,
      GetBaseLocationType t = .LOCATION_DOWNLOAD ↔ (t = .World ∨ t = .Hotfix)) ∧
    GetBaseLocationType .Login = .LOCATION_REPOSITORY ∧
    GetBaseLocationType .Character = .LOCATION_REPOSITORY := by
  refine ⟨fun t => ⟨profileOf t, rfl, fun p h => h.symm⟩, fun t => ?_, rfl, rfl⟩
  cases t <;> decide

/-- C3: `Update` returns success iff the client executable validates, the
configured source directory exists, and the fetcher's `Update` does not
raise `UpdateException`; each failing case yields `false` (no exception
escapes, the result is a boolean), and when the executable or the source
directory check fails the fetcher is never invoked. -/
theorem c3_update_success_iff (c s : Bool) (f : Except UpdateException UpdateResult) :
    ((Update c s f).1 = true ↔ (c = true ∧ s = true ∧ f.isOk = true)) ∧
    ((c = false ∨ s = false) → Update c s f = (false, false)) := by
  constructor
  · cases c <;> cases s <;> cases f <;> simp [Update, Except.isOk, Except.toBool]
  · rintro (rfl | rfl)
    · simp [Update]
    · cases c <;> simp [Update]

/-- C3 witness: a failing source-directory check at a concrete input. -/
theorem c3_update_success_iff_witness :
    Update true false (.ok ⟨0, 0, 0⟩) = (false, false) :=
  (c3_update_success_iff true false (.ok ⟨0, 0, 0⟩)).2 (Or.inr rfl)

/-- C5: once the scratch file opens, `Create` writes the `CREATE DATABASE`
statement to it, applies it, and removes it on both outcomes; when the
application throws, `Create` returns failure, otherwise success. -/
theorem c5_create_scratch_cleanup (env : CreateEnv) (db : String)
    (h : env.fileOpenOk = true) :
    Create env db = (!env.applyThrows,
      [.writeTemp (createStatement db), .applyTemp, .removeTemp]) := by
  cases ha : env.applyThrows <;> simp [Create, h, ha]

/-- C5 witness: a concrete failing application. -/
theorem c5_create_scratch_cleanup_witness :
    Create { fileOpenOk := true, applyThrows := true } "world" = (false,
      [.writeTemp (createStatement "world"), .applyTemp, .removeTemp]) :=
  c5_create_scratch_cleanup { fileOpenOk := true, applyThrows := true } "world" rfl

/-- C6: the argument vector of `ApplyFile` contains the adjacent pair
`-e` / `BEGIN; SOURCE <path>; COMMIT;`, and on the non-Windows branch a
digit first character of the port-or-socket value yields `-P<value>`
while a non-digit one yields `-P0`, `--protocol=SOCKET` and `-S<value>`. -/
theorem c6_applyfile_argument_vector (host user password ps database ssl path : String)
    (m8 m94 : Bool) (c : Char) (h : ps.data.head? = some c) :
    (∃ l1 l2, makeApplyFileArgs host user password ps database ssl path m8 m94 =
      l1 ++ ["-e", sourceCommand path] ++ l2) ∧
    (c.isDigit = true →
      ("-P" ++ ps) ∈ makeApplyFileArgs host user password ps database ssl path m8 m94) ∧
    (c.isDigit = false →
      "-P0" ∈ makeApplyFileArgs host user password ps database ssl path m8 m94 ∧
      "--protocol=SOCKET" ∈ makeApplyFileArgs host user password ps database ssl path m8 m94 ∧
      ("-S" ++ ps) ∈ makeApplyFileArgs host user password ps database ssl path m8 m94) := by
  refine ⟨⟨connArgs host user password ++ portArgs ps ++ charsetArgs ++ sslArgs ssl m8 m94,
    (if database ≠ "" then [database] else []), by simp [makeApplyFileArgs]⟩, ?_, ?_⟩
  · intro hdig
    simp [makeApplyFileArgs, portArgs, firstCharIsDigit_head ps c h, hdig]
  · intro hdig
    refine ⟨?_, ?_, ?_⟩ <;>
      simp [makeApplyFileArgs, portArgs, firstCharIsDigit_head ps c h, hdig]

/-- C6 witness: concrete TCP-port and named-socket invocations. -/
theorem c6_applyfile_argument_vector_witness :
    (("-P" ++ "3306") ∈
      makeApplyFileArgs "localhost" "root" "pw" "3306" "world" "ssl" "base.sql" true false) ∧
    ("-P0" ∈ makeApplyFileArgs "localhost" "root" "pw" "/run/mysqld.sock" "world" "" "base.sql"
        false false ∧
      "--protocol=SOCKET" ∈ makeApplyFileArgs "localhost" "root" "pw" "/run/mysqld.sock" "world"
        "" "base.sql" false false ∧
      ("-S" ++ "/run/mysqld.sock") ∈ makeApplyFileArgs "localhost" "root" "pw" "/run/mysqld.sock"
        "world" "" "base.sql" false false) :=
  ⟨(c6_applyfile_argument_vector "localhost" "root" "pw" "3306" "world" "ssl" "base.sql"
      true false '3' rfl).2.1 (by decide),
   (c6_applyfile_argument_vector "localhost" "root" "pw" "/run/mysqld.sock" "world" "" "base.sql"
      false false '/' rfl).2.2 (by decide)⟩

/-- C10: `ApplyFile` picks between the TCP-port and named-socket flags by
inspecting the first character of the port-or-socket value; that access
is in bounds exactly when the value is non-empty, and out of bounds for
every empty value. -/
theorem c10_port_first_char_bounds (s : String) :
    (s = "" → portOrSocketFirstChar s = none) ∧
    (s ≠ "" → ∃ c, portOrSocketFirstChar s = some c ∧
      portArgs s =
        (if c.isDigit then ["-P" ++ s] else ["-P0", "--protocol=SOCKET", "-S" ++ s])) := by
  constructor
  · rintro rfl; rfl
  · intro h
    cases hd : s.data with
    | nil =>
      exact absurd (String.ext hd) h
    | cons c l =>
      refine ⟨c, by simp [portOrSocketFirstChar, hd], ?_⟩
      have hfc : firstCharIsDigit s = c.isDigit :=
        firstCharIsDigit_head s c (by rw [hd]; rfl)
      unfold portArgs
      rw [hfc]
      cases hdig : c.isDigit <;> simp

/-- C10 witness: the empty value is out of bounds; a concrete socket path
is in bounds and selects the protocol-override flags. -/
theorem c10_port_first_char_bounds_witness :
    portOrSocketFirstChar "" = none ∧
    (∃ c, portOrSocketFirstChar "/run/mysqld.sock" = some c ∧
      portArgs "/run/mysqld.sock" =
        (if c.isDigit then ["-P" ++ "/run/mysqld.sock"]
         else ["-P0", "--protocol=SOCKET", "-S" ++ "/run/mysqld.sock"])) :=
  ⟨(c10_port_first_char_bounds "").1 rfl,
   (c10_port_first_char_bounds "/run/mysqld.sock").2 (by decide)⟩

/-- C8: `GetCorrectedMySQLExecutable` returns the cached corrected path
whenever one is recorded (non-empty) and the configured default
otherwise; after a `CheckExecutable` call that succeeds by finding the
client on the system PATH, the absolute located path is cached, and
every later resolve — across any number of further `CheckExecutable`
calls — still returns it (the cache is never cleared). -/
theorem c8_resolve_cached_path (env : ExecEnv) (cache : String)
    (hne : env.absolute env.searchPathResult ≠ "")
    (hmiss : env.is_regular_file (GetCorrectedMySQLExecutable env cache) = false)
    (hfound : env.searchPathResult ≠ "")
    (hreg : env.is_regular_file env.searchPathResult = true) :
    (∀ st : String, st ≠ "" → GetCorrectedMySQLExecutable env st = st) ∧
    (GetCorrectedMySQLExecutable env "" = env.defaultPath) ∧
    CheckExecutable env cache = (true, env.absolute env.searchPathResult) ∧
    (∀ n : Nat,
      GetCorrectedMySQLExecutable env
        ((fun st => (CheckExecutable env st).2)^[n] (env.absolute env.searchPathResult)) =
      env.absolute env.searchPathResult) := by
  have hres : ∀ st : String, st ≠ "" → GetCorrectedMySQLExecutable env st = st := by
    intro st hst
    simp [GetCorrectedMySQLExecutable, hst]
  refine ⟨hres, by simp [GetCorrectedMySQLExecutable], ?_, ?_⟩
  · rw [CheckExecutable, hmiss]
    simp [hfound, hreg]
  · intro n
    have hfix : (fun st => (CheckExecutable env st).2) (env.absolute env.searchPathResult) =
        env.absolute env.searchPathResult := by
      dsimp only
      rw [CheckExecutable, hres _ hne]
      by_cases hrf : env.is_regular_file (env.absolute env.searchPathResult) = true
      · rw [if_pos hrf]
      · rw [if_neg hrf]
        simp [hfound, hreg]
    rw [Function.iterate_fixed hfix n, hres _ hne]

/-- C8 witness: a concrete environment where the configured default is
missing and the PATH search locates the client. -/
theorem c8_resolve_cached_path_witness :
    CheckExecutable
      { defaultPath := "mysql", is_regular_file := fun s => s = "/usr/bin/mysql",
        searchPathResult := "/usr/bin/mysql", absolute := fun s => s }
      "" = (true, "/usr/bin/mysql") :=
  (c8_resolve_cached_path
    { defaultPath := "mysql", is_regular_file := fun s => s = "/usr/bin/mysql",
      searchPathResult := "/usr/bin/mysql", absolute := fun s => s }
    "" (by decide) (by decide) (by decide) (by decide)).2.2.1

/-- C4: with a validated executable, every database type other than the
world-content and hotfix-content types makes `Populate` return success
immediately — no client invocation — whenever `SHOW TABLES` is
non-empty; for the world-content and hotfix-content types the emptiness
check is skipped: the result never depends on it. -/
theorem c4_populate_emptiness_check (t : DatabaseType) (env : PopulateEnv)
    (stdin : List String) (hchk : env.checkExecutableOk = true) :
    ((t = .Login ∨ t = .Character) → env.showTablesNonEmpty = true →
      Populate t env stdin = (true, stdin, [])) ∧
    ((t = .World ∨ t = .Hotfix) → ∀ b : Bool,
      Populate t { env with showTablesNonEmpty := b } stdin = Populate t env stdin) := by
  constructor
  · rintro (rfl | rfl) hne <;> simp [Populate, GetTableName, hchk, hne]
  · rintro (rfl | rfl) b <;> simp [Populate, GetTableName, applyBaseStage, hchk]

/-- C4 witness: a non-empty auth schema short-circuits; the world type
ignores the emptiness bit. -/
theorem c4_populate_emptiness_check_witness :
    Populate .Login
      { checkExecutableOk := true, showTablesNonEmpty := true, baseFile := "auth.sql",
        allowAutoDBUpdate := true, downloadOk := true,
        applyEnv := { processRet := fun _ => 0, is_regular_file := fun _ => true } }
      [] = (true, [], []) :=
  (c4_populate_emptiness_check .Login
    { checkExecutableOk := true, showTablesNonEmpty := true, baseFile := "auth.sql",
      allowAutoDBUpdate := true, downloadOk := true,
      applyEnv := { processRet := fun _ => 0, is_regular_file := fun _ => true } }
    [] rfl).1 (Or.inl rfl) rfl

/-- C7: for a downloadable type with a validated executable and a
non-empty base path, when consent is given — by configuration or by a
`y`/`Y` answer — a failed download makes `Populate` return failure
immediately, with no client invocation. -/
theorem c7_download_failure_is_fatal (t : DatabaseType) (env : PopulateEnv)
    (ht : t = .World ∨ t = .Hotfix)
    (hchk : env.checkExecutableOk = true)
    (hbase : env.baseFile ≠ "")
    (hdl : env.downloadOk = false) :
    (env.allowAutoDBUpdate = true → ∀ stdin : List String,
      Populate t env stdin = (false, stdin, [])) ∧
    (env.allowAutoDBUpdate = false → ∀ (s : String) (rest : List String),
      (s = "y" ∨ s = "Y") → Populate t env (s :: rest) = (false, rest, [])) := by
  constructor
  · intro hauto stdin
    rcases ht with rfl | rfl <;>
      simp [Populate, GetTableName, hchk, hbase, hauto, hdl,
        downloadUrlFor_world_ne, downloadUrlFor_hotfixes_ne]
  · intro hauto s rest hs
    rcases ht with rfl | rfl <;>
      rcases hs with rfl | rfl <;>
        simp [Populate, GetTableName, getline, hchk, hbase, hauto, hdl,
          downloadUrlFor_world_ne, downloadUrlFor_hotfixes_ne]

/-- C7 witness: a concrete declined-download-free scenario — auto-update
on, download fails, no file applied. -/
theorem c7_download_failure_is_fatal_witness :
    Populate .World
      { checkExecutableOk := true, showTablesNonEmpty := false, baseFile := "world.sql",
        allowAutoDBUpdate := true, downloadOk := false,
        applyEnv := { processRet := fun _ => 0, is_regular_file := fun _ => true } }
      [] = (false, [], []) :=
  (c7_download_failure_is_fatal .World
    { checkExecutableOk := true, showTablesNonEmpty := false, baseFile := "world.sql",
      allowAutoDBUpdate := true, downloadOk := false,
      applyEnv := { processRet := fun _ => 0, is_regular_file := fun _ => true } }
    (Or.inl rfl) rfl (by decide) rfl).1 rfl []

/-- A concrete environment for the world-content database in which the
download succeeds but applying the downloaded base file fails and no
file exists at its path. -/
def envApplyFailNoDefault : PopulateEnv :=
  { checkExecutableOk := true, showTablesNonEmpty := false, baseFile := "TDB_full_world.sql",
    allowAutoDBUpdate := true, downloadOk := true,
    applyEnv := { processRet := fun _ => 1, is_regular_file := fun _ => false } }

/-- C1 counterexample: applying the base snapshot fails (the client exits
non-zero) and no default file exists on disk, yet `Populate` returns
success — not the hard failure the claim states. -/
theorem c1_counterexample_apply_failure_swallowed :
    (ApplyFileRun envApplyFailNoDefault.applyEnv envApplyFailNoDefault.baseFile []).1 =
      .error (.updateException "Database update canceled or failed") ∧
    envApplyFailNoDefault.applyEnv.is_regular_file envApplyFailNoDefault.baseFile = false ∧
    Populate .World envApplyFailNoDefault [] = (true, [], ["TDB_full_world.sql"]) := by
  refine ⟨rfl, rfl, by decide⟩

/-- C1 amended: whenever `Populate` performs any base-file application at
all, it returns success regardless of the application's outcome — a
failed application (including the no-default and declined-fallback
cases, where `ApplyFile` throws) is caught and ignored, and `Populate`
still reports success for that database. -/
theorem c1_amended_populate_ignores_apply_failure (t : DatabaseType)
    (env : PopulateEnv) (stdin : List String)
    (h : (Populate t env stdin).2.2 ≠ []) :
    (Populate t env stdin).1 = true :=
  (Populate_shape t env stdin).resolve_right h

/-- C1 witness: the counterexample environment applied one file and
returned success. -/
theorem c1_amended_populate_ignores_apply_failure_witness :
    (Populate .World envApplyFailNoDefault []).2.2 ≠ [] ∧
    (Populate .World envApplyFailNoDefault []).1 = true :=
  ⟨by decide, c1_amended_populate_ignores_apply_failure .World envApplyFailNoDefault []
    (by decide)⟩

/-- A concrete environment for the world-content database in which the
operator declines both the download and the local-file offer. -/
def envDeclinedTwice : PopulateEnv :=
  { checkExecutableOk := true, showTablesNonEmpty := false, baseFile := "TDB_full_world.sql",
    allowAutoDBUpdate := false, downloadOk := false,
    applyEnv := { processRet := fun _ => 1, is_regular_file := fun _ => false } }

/-- C2 counterexample: the operator answers `n` to the download prompt
and `n` to the local-file prompt, yet `Populate` still invokes the SQL
client on the original base path — the claim's "performs no base-file
application" is false. -/
theorem c2_counterexample_declined_still_applies :
    Populate .World envDeclinedTwice ["n", "n"] = (true, [], ["TDB_full_world.sql"]) := by
  decide

/-- C2 amended: when a download URL applies and the operator declines the
download and then also declines the alternative-local-file offer, the
run logs that the update was canceled but still falls through to apply
the original base path; the application's outcome is discarded and
`Populate` returns success. -/
theorem c2_amended_declined_applies_base (t : DatabaseType) (env : PopulateEnv)
    (s1 s2 : String) (rest : List String)
    (ht : t = .World ∨ t = .Hotfix)
    (hchk : env.checkExecutableOk = true)
    (hbase : env.baseFile ≠ "")
    (hauto : env.allowAutoDBUpdate = false)
    (h1y : s1 ≠ "y") (h1Y : s1 ≠ "Y")
    (h2y : s2 ≠ "y") (h2Y : s2 ≠ "Y") :
    Populate t env (s1 :: s2 :: rest) =
      (true, (ApplyFileRun env.applyEnv env.baseFile rest).2.1,
        (ApplyFileRun env.applyEnv env.baseFile rest).2.2) ∧
    env.baseFile ∈ (Populate t env (s1 :: s2 :: rest)).2.2 := by
  have hmain : Populate t env (s1 :: s2 :: rest) =
      (true, (ApplyFileRun env.applyEnv env.baseFile rest).2.1,
        (ApplyFileRun env.applyEnv env.baseFile rest).2.2) := by
    rcases ht with rfl | rfl <;>
      simp [Populate, GetTableName, getline, applyBaseStage, hchk, hbase, hauto,
        h1y, h1Y, h2y, h2Y, downloadUrlFor_world_ne, downloadUrlFor_hotfixes_ne]
  refine ⟨hmain, ?_⟩
  rw [hmain]
  exact ApplyFileRun_trace_mem env.applyEnv env.baseFile rest

/-- C2 witness: the declined-twice environment still applies the base
file and succeeds. -/
theorem c2_amended_declined_applies_base_witness :
    Populate .World envDeclinedTwice ["n", "n"] =
      (true, (ApplyFileRun envDeclinedTwice.applyEnv envDeclinedTwice.baseFile []).2.1,
        (ApplyFileRun envDeclinedTwice.applyEnv envDeclinedTwice.baseFile []).2.2) ∧
    envDeclinedTwice.baseFile ∈ (Populate .World envDeclinedTwice ["n", "n"]).2.2 :=
  c2_amended_declined_applies_base .World envDeclinedTwice "n" "n" []
    (Or.inl rfl) rfl (by decide) rfl (by decide) (by decide) (by decide) (by decide)

end DBUpdaterModel
